import Mathlib

/-!
Shallow embedding of `trex_capture.py` — the live traffic-capture monitor of
trex-core's STL console (classes `CaptureMonitorWriterStdout`,
`CaptureMonitorWriterPipe`, `CaptureMonitor`, `CaptureManager`).

Python exceptions are modelled with `Except PyExc`; object attributes that may
be `None` or may be absent are modelled with `Option`; floats (timestamps) are
kept out of the properties, which never depend on them.
-/

namespace TrexCapture

/-- Python exception classes that the capture module can raise or observe.
`stl` is `STLError` (the monitor-level error type); `decodeErr` stands for the
raw exception raised by `base64.b64decode` / `Ether` on undecodable input;
`osErr` is `OSError`; `kbInt` is `KeyboardInterrupt`; `attrErr` is
`AttributeError`. -/
inductive PyExc where
  | stl (msg : String)
  | decodeErr
  | osErr
  | kbInt
  | attrErr (msg : String)
  | other (msg : String)
deriving DecidableEq, Repr

/-- Whether an exception is the monitor-level error type `STLError`. -/
def PyExc.isSTL : PyExc → Bool
  | .stl _ => true
  | _ => false

/-- One fetched packet, as the dict the fetch RPC returns.  `binary` is the
outcome of decoding the base64 `binary` field into raw bytes (`none` when the
external decode capability fails); `origin`, `port` and `index` mirror the
other dict fields used only for display. -/
structure CapturedPacket where
  binary : Option (List Nat)
  origin : String
  port : Nat
  index : Nat
deriving DecidableEq, Repr

/-- Byte length of a packet's decoded payload, `0` when undecodable (only ever
used on decodable packets). -/
def CapturedPacket.binLen (p : CapturedPacket) : Nat :=
  (p.binary.getD []).length

/-! ### Worker loop counters (`CaptureMonitor.__thread_main_loop`, lines 345-382) -/

/-- The cumulative counters the worker thread maintains
(`self.pkt_count`, `self.byte_count`). -/
structure MonCounters where
  pkt_count : Nat
  byte_count : Nat
deriving DecidableEq, Repr

/-- Lines 374-382 of `__thread_main_loop`: after a successful fetch returned
`pkts`, skip when the list is empty (`if not pkts: continue`), otherwise call
`writer.handle_pkts` (modelled by `w`, its returned byte count) and add the
packet count and returned bytes to the cumulative counters.  The `Bool`
records whether `writer.handle_pkts` was invoked in this iteration. -/
def deliverPkts (w : List CapturedPacket → Nat) (s : MonCounters)
    (pkts : List CapturedPacket) : MonCounters × Bool :=
  if pkts.isEmpty then
    (s, false)
  else
    ({ pkt_count := s.pkt_count + pkts.length,
       byte_count := s.byte_count + w pkts }, true)

/-- A run of successive successful fetch cycles: fold `deliverPkts` over the
list of fetched batches. -/
def runCycles (w : List CapturedPacket → Nat) (s : MonCounters)
    (cycles : List (List CapturedPacket)) : MonCounters :=
  cycles.foldl (fun st pkts => (deliverPkts w st pkts).1) s

/-! ### Writer variants -/

/-- `CaptureMonitorWriterStdout.__handle_pkt` (lines 63-76): decode the base64
binary (an undecodable packet raises the raw decode exception, there is no
try/except around it), log the formatted header and dump, and return the
payload's byte length. -/
def stdoutHandlePkt (p : CapturedPacket) : Except PyExc Nat :=
  match p.binary with
  | none => .error .decodeErr
  | some bs => .ok bs.length

/-- Accumulator loop inside `CaptureMonitorWriterStdout.handle_pkts`. -/
def stdoutHandlePktsGo (acc : Nat) : List CapturedPacket → Except PyExc Nat
  | [] => .ok acc
  | p :: rest =>
    match stdoutHandlePkt p with
    | .error e => .error e
    | .ok n => stdoutHandlePktsGo (acc + n) rest

/-- `CaptureMonitorWriterStdout.handle_pkts` (lines 79-89): sum the byte
counts of the packets; any per-packet exception propagates (the `finally`
only redraws the prompt and does not change the outcome). -/
def stdoutHandlePkts (pkts : List CapturedPacket) : Except PyExc Nat :=
  stdoutHandlePktsGo 0 pkts

/-- `CaptureMonitorWriterPipe.check_pipe` (lines 159-161): consult the poll
probe with a zero timeout; a non-empty event list means the pipe hung up and
raises `STLError`.  `pollEvents t` is the event list `self.poll.poll(t)`
would return for timeout `t`. -/
def check_pipe (pollEvents : Nat → List Nat) : Except PyExc Unit :=
  if (pollEvents 0).isEmpty then .ok () else .error (.stl "pipe has been disconnected")

/-- `CaptureMonitorWriterPipe.periodic_check` (lines 155-156): just
`check_pipe`. -/
def pipePeriodicCheck (pollEvents : Nat → List Nat) : Except PyExc Unit :=
  check_pipe pollEvents

/-- One packet inside `CaptureMonitorWriterPipe.handle_pkts_internal`
(lines 175-184): decode the base64 binary (raw exception if it fails, not
wrapped), then `_write_packet`; only the write is wrapped in try/except and
converted to `STLError`.  `writeOk` is whether `_write_packet` succeeds. -/
def pipeWritePkt (writeOk : Bool) (p : CapturedPacket) : Except PyExc Nat :=
  match p.binary with
  | none => .error .decodeErr
  | some bs =>
    if writeOk then .ok bs.length
    else .error (.stl "fail to write packets to pipe")

/-- Accumulator loop of `CaptureMonitorWriterPipe.handle_pkts_internal`. -/
def pipeHandlePktsGo (writeOk : Bool) (acc : Nat) :
    List CapturedPacket → Except PyExc Nat
  | [] => .ok acc
  | p :: rest =>
    match pipeWritePkt writeOk p with
    | .error e => .error e
    | .ok n => pipeHandlePktsGo writeOk (acc + n) rest

/-- `CaptureMonitorWriterPipe.handle_pkts_internal` (lines 171-186). -/
def pipeHandlePktsInternal (writeOk : Bool) (pkts : List CapturedPacket) :
    Except PyExc Nat :=
  pipeHandlePktsGo writeOk 0 pkts

/-- `CaptureMonitorWriterPipe.handle_pkts` (lines 164-168): first check the
pipe is alive, then write the batch. -/
def pipeHandlePkts (pollEvents : Nat → List Nat) (writeOk : Bool)
    (pkts : List CapturedPacket) : Except PyExc Nat :=
  match check_pipe pollEvents with
  | .error e => .error e
  | .ok _ => pipeHandlePktsInternal writeOk pkts

/-! ### The command lock and the locked fetch region
(`CaptureMonitor.__lock`/`__unlock`, lines 314-325, and the locked region of
`__thread_main_loop`, lines 359-371) -/

/-- The shared command lock, instrumented with acquire/release counts so that
"released exactly once" is observable. -/
structure CmdLock where
  held : Bool
  acquires : Nat
  releases : Nat
deriving DecidableEq, Repr

/-- `cmd_lock.acquire(False)` when it succeeds. -/
def CmdLock.take (l : CmdLock) : CmdLock :=
  { held := true, acquires := l.acquires + 1, releases := l.releases }

/-- `CaptureMonitor.__unlock` (lines 324-325): `cmd_lock.release()`. -/
def CmdLock.drop (l : CmdLock) : CmdLock :=
  { held := false, acquires := l.acquires, releases := l.releases + 1 }

/-- `CaptureMonitor.__lock` (lines 314-322): poll `acquire(False)`; on
failure re-check the active flag and retry after 100 ms.  Each element of
`sched` is one poll attempt `(acquire succeeded, active flag at re-check)`;
the result is `some (true, lock)` when the lock was acquired, `some (false,
lock)` when the monitor was deactivated first, and `none` when the modelled
schedule ran out while the loop was still polling. -/
def lockAcquireLoop (l : CmdLock) : List (Bool × Bool) → Option (Bool × CmdLock)
  | [] => none
  | (acq, act) :: rest =>
    if acq then some (true, l.take)
    else if !act then some (false, l)
    else lockAcquireLoop l rest

/-- Outcome of the fetch RPC `client._transmit("capture", fetch, ...)`:
`none` when `rc` is falsy (RPC failure), `some pkts` when it succeeded and
`rc.data()['pkts']` is `pkts`. -/
abbrev FetchRc : Type := Option (List CapturedPacket)

/-- The locked region of `__thread_main_loop` (lines 362-371): under the
lock, raise if the client is disconnected, issue the fetch RPC and raise if
it failed; the `finally` clause releases the lock on every exit path. -/
def lockedFetch (connected : Bool) (rc : FetchRc) (l : CmdLock) :
    Except PyExc (List CapturedPacket) × CmdLock :=
  let body : Except PyExc (List CapturedPacket) :=
    if !connected then .error (.stl "client has been disconnected")
    else
      match rc with
      | none => .error (.stl "fetch rc failed")
      | some pkts => .ok pkts
  (body, l.drop)

/-- Lines 359-371 as one step: acquire the lock via `__lock` under schedule
`sched`; if acquired, run the locked fetch region.  Result: `none` when the
schedule ran out mid-poll, `some (none, l)` when `__lock` exited because the
monitor was deactivated (worker returns, no region run), and
`some (some outcome, l)` when the region ran. -/
def lockedIteration (connected : Bool) (rc : FetchRc)
    (sched : List (Bool × Bool)) (l : CmdLock) :
    Option (Option (Except PyExc (List CapturedPacket)) × CmdLock) :=
  match lockAcquireLoop l sched with
  | none => none
  | some (false, l1) => some (none, l1)
  | some (true, l1) =>
    let (res, l2) := lockedFetch connected rc l1
    some (some res, l2)

/-! ### Pipe writer construction and deinit
(`CaptureMonitorWriterPipe.__init__`, lines 94-136, and `deinit`,
lines 140-151) -/

/-- The filesystem as the set of existing pipe files. -/
structure FileSys where
  files : List String
deriving DecidableEq, Repr

/-- The pipe writer's own attributes. -/
structure PipeWriterState where
  fifo : Option Nat
  fifo_name : Option String
deriving DecidableEq, Repr

/-- `CaptureMonitorWriterPipe.deinit` (lines 140-151): close the fifo if
open, then unlink the pipe file if the name is still stored; one try/except
swallows any `OSError` from the pair (so if `unlink` fails because the file
is already gone, `fifo_name` is left set). -/
def pipeDeinit (pw : PipeWriterState) (fs : FileSys) :
    PipeWriterState × FileSys :=
  let pw1 : PipeWriterState :=
    match pw.fifo with
    | some _ => { pw with fifo := none }
    | none => pw
  match pw1.fifo_name with
  | none => (pw1, fs)
  | some n =>
    if n ∈ fs.files then
      ({ pw1 with fifo_name := none }, { files := fs.files.erase n })
    else
      (pw1, fs)

/-- Outcome of one step inside the pipe constructor's try block: the step
succeeds, raises `OSError`, or is interrupted by `KeyboardInterrupt`. -/
inductive StepOutcome where
  | ok
  | osErr
  | kbInt
deriving DecidableEq, Repr

/-- The exception such a failed step raises. -/
def StepOutcome.exc : StepOutcome → PyExc
  | .ok => .stl "unreachable"
  | .osErr => .osErr
  | .kbInt => .kbInt

/-- `CaptureMonitorWriterPipe.__init__` (lines 94-136).  `name` is the fresh
path from `tempfile.mktemp()`; `sMkfifo`, `sOpen`, `sHeader` are the
outcomes of `os.mkfifo`, the blocking `os.open`, and the PCAP
writer-and-header step.  Both except clauses (`KeyboardInterrupt`,
`OSError`) call `deinit` and re-raise as `STLError`. -/
def pipeInit (name : String) (sMkfifo sOpen sHeader : StepOutcome)
    (fs : FileSys) : Except PyExc PipeWriterState × FileSys :=
  let pw0 : PipeWriterState := { fifo := none, fifo_name := some name }
  match sMkfifo with
  | .ok =>
    let fs1 : FileSys := { files := name :: fs.files }
    match sOpen with
    | .ok =>
      let pw1 : PipeWriterState := { pw0 with fifo := some 3 }
      match sHeader with
      | .ok => (.ok pw1, fs1)
      | s =>
        let (_, fs2) := pipeDeinit pw1 fs1
        (.error (.stl (if s = .kbInt then "pipe monitor aborted" else "failed to create pipe")), fs2)
    | s =>
      let (_, fs2) := pipeDeinit pw0 fs1
      (.error (.stl (if s = .kbInt then "pipe monitor aborted" else "failed to create pipe")), fs2)
  | s =>
    let (_, fs2) := pipeDeinit pw0 fs
    (.error (.stl (if s = .kbInt then "pipe monitor aborted" else "failed to create pipe")), fs2)

/-! ### CaptureMonitor lifecycle (`__init__`/`__start`/`__stop`/accessors,
lines 190-301) -/

/-- The CaptureMonitor object's local attributes.  `t` is `self.t`
(`none` = Python `None`, `some alive` = a Thread handle and its liveness);
`writer` and `capture_id` likewise; `pkt_count`/`byte_count` are `none` while
the attribute has never been assigned (it is set only by the worker thread,
lines 346-347). -/
structure MonLocal where
  t : Option Bool
  writer : Option Unit
  capture_id : Option Nat
  pkt_count : Option Nat
  byte_count : Option Nat
  tx_port_list : List Nat
  rx_port_list : List Nat
deriving DecidableEq, Repr

/-- `self.t and self.t.is_alive()`. -/
def MonLocal.threadAlive (m : MonLocal) : Bool :=
  match m.t with
  | some alive => alive
  | none => false

/-- Lines 196-203 of `CaptureMonitor.__init__`: the monitor's attributes as
they stand before `__start` is attempted. -/
def freshMon (tx rx : List Nat) : MonLocal :=
  { t := none, writer := none, capture_id := none,
    pkt_count := none, byte_count := none,
    tx_port_list := tx, rx_port_list := rx }

/-- The monitor together with its environment: the server's live capture
sessions, the connectivity of the RPC channel, and a count of
`writer.deinit()` invocations. -/
structure CapWorld where
  mon : MonLocal
  server : List Nat
  connected : Bool
  deinits : Nat
deriving DecidableEq, Repr

/-- The local part of `CaptureMonitor.__stop` (lines 244-256): join the
worker if it is alive and clear `self.t`; run `writer.deinit()` and clear
`self.writer` if a writer is present; clear `self.capture_id`. -/
def monStopLocalMon (m : MonLocal) : MonLocal :=
  let m1 := if m.threadAlive then { m with t := none } else m
  let m2 :=
    match m1.writer with
    | some _ => { m1 with writer := none }
    | none => m1
  { m2 with capture_id := none }

/-- How many `writer.deinit()` calls lines 250-252 perform. -/
def monStopDeinitCount (m : MonLocal) : Nat :=
  match m.writer with
  | some _ => 1
  | none => 0

/-- `CaptureMonitor.__stop` (lines 241-269).  The capture id is saved before
it is cleared; after the local cleanup, if the client is disconnected the
function returns, otherwise it fetches the server's live session ids and
issues `stop_capture` only when the saved id is still among them.
`stopRpcFails` is whether that final RPC raises.  Returns the world, the
exception that propagated (if any), and how many stop-session RPCs were
issued. -/
def monStopInternal (stopRpcFails : Bool) (w : CapWorld) :
    CapWorld × Option PyExc × Nat :=
  let cid := w.mon.capture_id
  let w1 : CapWorld :=
    { w with mon := monStopLocalMon w.mon,
             deinits := w.deinits + monStopDeinitCount w.mon }
  if !w1.connected then (w1, none, 0)
  else
    match cid with
    | none => (w1, none, 0)
    | some i =>
      if i ∈ w1.server then
        if stopRpcFails then (w1, some (.stl "stop capture rpc failed"), 1)
        else ({ w1 with server := w1.server.erase i }, none, 1)
      else (w1, none, 0)

/-- Which step of `CaptureMonitor.__start` fails, if any. -/
inductive StartOutcome where
  | rpcFail
  | writerFail
  | threadStartFail
  | ok
deriving DecidableEq, Repr

/-- `CaptureMonitor.__start` (lines 213-237): start-session RPC (records the
returned id and creates a server session), writer construction (on failure
the writer has already cleaned itself up and `self.writer` stays `None`),
then `self.t = Thread(...)` followed by `self.t.start()` (on a failing
`start()` the handle is set but the thread never becomes alive). -/
def monStart (o : StartOutcome) (newId : Nat) (w : CapWorld) :
    CapWorld × Option PyExc :=
  if o = .rpcFail then (w, some (.stl "start capture rpc failed"))
  else
    let w1 : CapWorld :=
      { w with server := newId :: w.server,
               mon := { w.mon with capture_id := some newId } }
    if o = .writerFail then (w1, some (.stl "writer construction failed"))
    else
      let w2 : CapWorld := { w1 with mon := { w1.mon with writer := some () } }
      if o = .threadStartFail then
        ({ w2 with mon := { w2.mon with t := some false } },
         some (.other "thread start failed"))
      else
        ({ w2 with mon := { w2.mon with t := some true } }, none)

/-- `CaptureMonitor.__init__` (lines 205-210): try `__start`; on any
exception run `__stop` and re-raise (an exception from `__stop` itself
replaces the original). -/
def monInit (o : StartOutcome) (newId : Nat) (stopRpcFails : Bool)
    (w : CapWorld) : CapWorld × Option PyExc :=
  let r := monStart o newId w
  match r.2 with
  | none => (r.1, none)
  | some e =>
    let s := monStopInternal stopRpcFails r.1
    (s.1, some ((s.2.1).getD e))

/-- Lines 346-347 of `__thread_main_loop`: the first thing the worker thread
does is initialize the cumulative counters. -/
def workerInitCounters (m : MonLocal) : MonLocal :=
  { m with pkt_count := some 0, byte_count := some 0 }

/-- `', '.join([str(x) for x in l] if l else '-')`. -/
def formatPortList (l : List Nat) : String :=
  if l.isEmpty then "-" else String.intercalate ", " (l.map toString)

/-- The status row `get_mon_row` builds. -/
structure MonRow where
  id : Option Nat
  status : String
  pkts : Nat
  bytes : Nat
  tx : String
  rx : String
deriving DecidableEq, Repr

/-- `CaptureMonitor.get_mon_row` (lines 285-293): the row's cells are
evaluated left to right; `self.t.is_alive()` raises `AttributeError` when
`self.t` is `None`, and `self.pkt_count` / `self.byte_count` raise
`AttributeError` when the worker thread never assigned them. -/
def get_mon_row (m : MonLocal) : Except PyExc MonRow :=
  match m.t with
  | none => .error (.attrErr "NoneType object has no attribute is_alive")
  | some alive =>
    match m.pkt_count with
    | none => .error (.attrErr "CaptureMonitor object has no attribute pkt_count")
    | some pc =>
      match m.byte_count with
      | none => .error (.attrErr "CaptureMonitor object has no attribute byte_count")
      | some bc =>
        .ok { id := m.capture_id,
              status := if alive then "ACTIVE" else "DEAD",
              pkts := pc, bytes := bc,
              tx := formatPortList m.tx_port_list,
              rx := formatPortList m.rx_port_list }

/-! ### CaptureManager monitor commands (lines 444-548) -/

/-- The manager-level monitor commands: `parse_monitor_start` with a
successful construction (yielding monitor id `newId`), `parse_monitor_start`
whose `CaptureMonitor(...)` constructor raises (the old monitor was already
stopped and `self.monitor` set to `None`), `parse_monitor_stop` (also
`CaptureManager.stop`), and `parse_clear`. -/
inductive MonCmd where
  | start (newId : Nat)
  | startFail
  | stop
  | clear
deriving DecidableEq, Repr

/-- The manager's monitor field together with the set of monitors
constructed and not yet stopped (a stopped monitor's worker is joined and
its session discarded, so it is no longer active). -/
structure MgrState where
  monitor : Option Nat
  liveMonitors : List Nat
deriving DecidableEq, Repr

/-- `if self.monitor: self.monitor.stop(); self.monitor = None` — the prefix
common to `parse_monitor_start`, `parse_monitor_stop`, `CaptureManager.stop`
and `parse_clear`. -/
def mgrStopCurrent (st : MgrState) : MgrState :=
  match st.monitor with
  | none => st
  | some m => { monitor := none, liveMonitors := st.liveMonitors.erase m }

/-- One manager command. `start` stops and discards any existing monitor
before constructing the new one (lines 532-536); a failing construction
leaves `self.monitor = None`; `stop`/`clear` stop and discard the current
monitor (lines 539-548). -/
def mgrStep (st : MgrState) : MonCmd → MgrState
  | .start newId =>
    let st1 := mgrStopCurrent st
    { monitor := some newId, liveMonitors := newId :: st1.liveMonitors }
  | .startFail => mgrStopCurrent st
  | .stop => mgrStopCurrent st
  | .clear => mgrStopCurrent st

/-- `CaptureManager.__init__`: `self.monitor = None`. -/
def mgrInit : MgrState := { monitor := none, liveMonitors := [] }

/-- A whole command sequence from the initial manager state. -/
def mgrRun (cmds : List MonCmd) : MgrState :=
  cmds.foldl mgrStep mgrInit

/-! ## Theorems -/

/-- One delivery step adds exactly the packet count and the writer's returned
byte count (the empty batch is skipped, which adds nothing, matching
`w [] = 0`). -/
theorem deliverPkts_fst (w : List CapturedPacket → Nat) (hw : w [] = 0)
    (s : MonCounters) (pkts : List CapturedPacket) :
    (deliverPkts w s pkts).1
      = ⟨s.pkt_count + pkts.length, s.byte_count + w pkts⟩ := by
  cases s with
  | mk pc bc =>
    cases pkts with
    | nil => simp [deliverPkts, hw]
    | cons p rest => simp [deliverPkts]

/-- Counters after a run of cycles: the initial counters plus the sums. -/
theorem runCycles_counts (w : List CapturedPacket → Nat) (hw : w [] = 0)
    (cycles : List (List CapturedPacket)) (s : MonCounters) :
    runCycles w s cycles
      = ⟨s.pkt_count + (cycles.map List.length).sum,
         s.byte_count + (cycles.map w).sum⟩ := by
  induction cycles generalizing s with
  | nil =>
    cases s
    simp [runCycles]
  | cons c cs ih =>
    have hstep : runCycles w s (c :: cs)
        = runCycles w ((deliverPkts w s c).1) cs := rfl
    rw [hstep, ih ((deliverPkts w s c).1), deliverPkts_fst w hw]
    simp [add_assoc]

/-- C1: for every worker run in which successive fetch cycles succeed,
returning batches `cycles` whose `writer.handle_pkts` calls return the byte
counts `w batch`, the cumulative counters afterwards satisfy
`pkt_count = Σ kᵢ` and `byte_count = Σ bᵢ`, and each delivery step leaves
both counters no smaller than before (monotonically non-decreasing). -/
theorem claim_C1_counters (w : List CapturedPacket → Nat) (hw : w [] = 0)
    (cycles : List (List CapturedPacket)) (s : MonCounters)
    (pkts : List CapturedPacket) :
    ((runCycles w ⟨0, 0⟩ cycles).pkt_count = (cycles.map List.length).sum
      ∧ (runCycles w ⟨0, 0⟩ cycles).byte_count = (cycles.map w).sum)
    ∧ (s.pkt_count ≤ ((deliverPkts w s pkts).1).pkt_count
      ∧ s.byte_count ≤ ((deliverPkts w s pkts).1).byte_count) := by
  refine ⟨?_, ?_⟩
  · rw [runCycles_counts w hw]
    simp
  · rw [deliverPkts_fst w hw]
    exact ⟨Nat.le_add_right _ _, Nat.le_add_right _ _⟩

/-- A sample writer that sums the payload lengths (what both concrete
writers return on a fully decodable batch). -/
def sampleWriter : List CapturedPacket → Nat :=
  fun pkts => (pkts.map CapturedPacket.binLen).sum

/-- A sample run: a 2-packet cycle then a 1-packet cycle. -/
def sampleCycles : List (List CapturedPacket) :=
  [[⟨some [1, 2], "RX", 0, 0⟩, ⟨some [3], "TX", 1, 1⟩],
   [⟨some [4, 5], "RX", 0, 2⟩]]

/-- A sample non-empty batch. -/
def samplePkts : List CapturedPacket := [⟨some [9], "RX", 0, 3⟩]

/-- Witness for C1 at a concrete run. -/
theorem claim_C1_counters_witness :
    sampleWriter [] = 0
    ∧ (((runCycles sampleWriter ⟨0, 0⟩ sampleCycles).pkt_count
          = (sampleCycles.map List.length).sum
        ∧ (runCycles sampleWriter ⟨0, 0⟩ sampleCycles).byte_count
          = (sampleCycles.map sampleWriter).sum)
      ∧ ((3 : Nat) ≤ ((deliverPkts sampleWriter ⟨3, 7⟩ samplePkts).1).pkt_count
        ∧ (7 : Nat) ≤ ((deliverPkts sampleWriter ⟨3, 7⟩ samplePkts).1).byte_count)) :=
  ⟨rfl, claim_C1_counters sampleWriter rfl sampleCycles ⟨3, 7⟩ samplePkts⟩

/-- C2: an iteration whose fetch succeeded with an empty packet list leaves
both counters unchanged and does not invoke `writer.handle_pkts` (the
invocation flag is `false`). -/
theorem claim_C2_empty_fetch (w : List CapturedPacket → Nat) (s : MonCounters) :
    deliverPkts w s [] = (s, false) := rfl

/-- The manager state invariant: the monitor field mirrors exactly the set
of not-yet-stopped monitors — none, or exactly the current one. -/
def MgrInv (st : MgrState) : Prop :=
  (st.monitor = none ∧ st.liveMonitors = [])
  ∨ ∃ m, st.monitor = some m ∧ st.liveMonitors = [m]

/-- Stopping the current monitor (the shared prefix of every command) leaves
no monitor alive. -/
theorem mgrStopCurrent_clears (st : MgrState) (h : MgrInv st) :
    (mgrStopCurrent st).monitor = none
    ∧ (mgrStopCurrent st).liveMonitors = [] := by
  rcases h with ⟨h1, h2⟩ | ⟨m, h1, h2⟩
  · simp [mgrStopCurrent, h1, h2]
  · simp [mgrStopCurrent, h1, h2]

/-- Every manager command preserves the invariant. -/
theorem mgrStep_inv (st : MgrState) (c : MonCmd) (h : MgrInv st) :
    MgrInv (mgrStep st c) := by
  cases c with
  | start newId =>
    have h2 := mgrStopCurrent_clears st h
    exact .inr ⟨newId, rfl, by simp [mgrStep, h2.2]⟩
  | startFail => exact .inl (mgrStopCurrent_clears st h)
  | stop => exact .inl (mgrStopCurrent_clears st h)
  | clear => exact .inl (mgrStopCurrent_clears st h)

/-- The invariant holds along any fold of commands. -/
theorem mgrFold_inv (cmds : List MonCmd) (st : MgrState) (h : MgrInv st) :
    MgrInv (cmds.foldl mgrStep st) := by
  induction cmds generalizing st with
  | nil => exact h
  | cons c cs ih => exact ih (mgrStep st c) (mgrStep_inv st c h)

/-- C3: after any sequence of monitor start/stop/clear commands, at most one
monitor is active, and the stop-current prefix that every command (in
particular `parse_monitor_start`) runs first leaves zero monitors active —
so at no instant are two monitors alive. -/
theorem claim_C3_single_monitor (cmds : List MonCmd) :
    (mgrRun cmds).liveMonitors.length ≤ 1
    ∧ (mgrStopCurrent (mgrRun cmds)).liveMonitors = [] := by
  have h : MgrInv (mgrRun cmds) := mgrFold_inv cmds mgrInit (.inl ⟨rfl, rfl⟩)
  refine ⟨?_, (mgrStopCurrent_clears _ h).2⟩
  rcases h with ⟨_, h2⟩ | ⟨m, _, h2⟩ <;> simp [h2]

/-- Field-by-field effect of the local part of `__stop`: the thread handle
is cleared only when the worker was alive, the writer and capture id are
always cleared, and the counters and port lists are untouched. -/
theorem monStopLocalMon_fields (m : MonLocal) :
    (monStopLocalMon m).t = (if m.threadAlive then none else m.t)
    ∧ (monStopLocalMon m).writer = none
    ∧ (monStopLocalMon m).capture_id = none
    ∧ (monStopLocalMon m).pkt_count = m.pkt_count
    ∧ (monStopLocalMon m).byte_count = m.byte_count
    ∧ (monStopLocalMon m).tx_port_list = m.tx_port_list
    ∧ (monStopLocalMon m).rx_port_list = m.rx_port_list := by
  obtain ⟨t, wr, cid, pc, bc, tx, rx⟩ := m
  rcases t with _ | a
  · cases wr <;> simp [monStopLocalMon, MonLocal.threadAlive]
  · cases a <;> cases wr <;> simp [monStopLocalMon, MonLocal.threadAlive]

/-- After the local part of `__stop`, the thread is never alive. -/
theorem monStopLocalMon_threadAlive (m : MonLocal) :
    (monStopLocalMon m).threadAlive = false := by
  obtain ⟨t, wr, cid, pc, bc, tx, rx⟩ := m
  rcases t with _ | a
  · cases wr <;> simp [monStopLocalMon, MonLocal.threadAlive]
  · cases a <;> cases wr <;> simp [monStopLocalMon, MonLocal.threadAlive]

/-- The monitor object left by `__stop` is exactly the locally cleaned one,
on every remote-cleanup branch (disconnected, id absent, RPC success, RPC
failure). -/
theorem monStopInternal_mon (rf : Bool) (w : CapWorld) :
    ((monStopInternal rf w).1).mon = monStopLocalMon w.mon := by
  unfold monStopInternal
  dsimp only
  split
  · rfl
  · split
    · rfl
    · split
      · split <;> rfl
      · rfl

/-- `__stop` runs `writer.deinit()` exactly once when a writer is present,
on every remote-cleanup branch. -/
theorem monStopInternal_deinits (rf : Bool) (w : CapWorld) :
    ((monStopInternal rf w).1).deinits = w.deinits + monStopDeinitCount w.mon := by
  unfold monStopInternal
  dsimp only
  split
  · rfl
  · split
    · rfl
    · split
      · split <;> rfl
      · rfl

/-- `__stop` issues the stop-session RPC exactly when the client is
connected and the saved capture id is still in the server's list of live
sessions. -/
theorem monStopInternal_rpcCount (rf : Bool) (w : CapWorld) :
    (monStopInternal rf w).2.2
      = if w.connected
            && (w.mon.capture_id.elim false (fun i => decide (i ∈ w.server)))
        then 1 else 0 := by
  unfold monStopInternal
  dsimp only
  rcases hc : w.connected
  · simp [hc]
  · rcases hcid : w.mon.capture_id with _ | i
    · simp [hc, hcid]
    · by_cases hm : i ∈ w.server
      · cases rf <;> simp [hc, hcid, hm]
      · simp [hc, hcid, hm]

/-- C4: if any step of `CaptureMonitor` construction fails (start-session
RPC, writer construction, or thread spawn), `__stop` runs before the
exception is re-raised: the result carries an exception, no live worker
thread remains, the writer slot is empty (a constructed writer got its
`deinit`), and no capture session is attached to the monitor. -/
theorem claim_C4_init_rollback (o : StartOutcome) (ho : o ≠ StartOutcome.ok)
    (newId : Nat) (rf : Bool) (w : CapWorld) (tx rx : List Nat)
    (hw : w.mon = freshMon tx rx) :
    ((monInit o newId rf w).2).isSome = true
    ∧ ((monInit o newId rf w).1).mon.threadAlive = false
    ∧ ((monInit o newId rf w).1).mon.writer = none
    ∧ ((monInit o newId rf w).1).mon.capture_id = none
    ∧ ((monInit o newId rf w).1).deinits
        = w.deinits + (if o = StartOutcome.threadStartFail then 1 else 0) := by
  obtain ⟨m, server, conn, dn⟩ := w
  dsimp only at hw
  subst hw
  cases o with
  | ok => exact absurd rfl ho
  | rpcFail =>
    refine ⟨rfl, ?_, ?_, ?_, ?_⟩ <;>
      simp [monInit, monStart, monStopInternal_mon, monStopInternal_deinits,
            monStopLocalMon_threadAlive, (monStopLocalMon_fields _).2.1,
            (monStopLocalMon_fields _).2.2.1, monStopDeinitCount, freshMon]
  | writerFail =>
    refine ⟨rfl, ?_, ?_, ?_, ?_⟩ <;>
      simp [monInit, monStart, monStopInternal_mon, monStopInternal_deinits,
            monStopLocalMon_threadAlive, (monStopLocalMon_fields _).2.1,
            (monStopLocalMon_fields _).2.2.1, monStopDeinitCount, freshMon]
  | threadStartFail =>
    refine ⟨rfl, ?_, ?_, ?_, ?_⟩ <;>
      simp [monInit, monStart, monStopInternal_mon, monStopInternal_deinits,
            monStopLocalMon_threadAlive, (monStopLocalMon_fields _).2.1,
            (monStopLocalMon_fields _).2.2.1, monStopDeinitCount, freshMon]

/-- Witness for C4: a failing thread spawn against a connected server. -/
theorem claim_C4_init_rollback_witness :
    ((monInit StartOutcome.threadStartFail 9 false
        { mon := freshMon [0] [1], server := [4], connected := true,
          deinits := 0 }).2).isSome = true
    ∧ ((monInit StartOutcome.threadStartFail 9 false
        { mon := freshMon [0] [1], server := [4], connected := true,
          deinits := 0 }).1).mon.threadAlive = false
    ∧ ((monInit StartOutcome.threadStartFail 9 false
        { mon := freshMon [0] [1], server := [4], connected := true,
          deinits := 0 }).1).mon.writer = none
    ∧ ((monInit StartOutcome.threadStartFail 9 false
        { mon := freshMon [0] [1], server := [4], connected := true,
          deinits := 0 }).1).mon.capture_id = none
    ∧ ((monInit StartOutcome.threadStartFail 9 false
        { mon := freshMon [0] [1], server := [4], connected := true,
          deinits := 0 }).1).deinits
        = 0 + (if StartOutcome.threadStartFail = StartOutcome.threadStartFail
               then 1 else 0) :=
  claim_C4_init_rollback StartOutcome.threadStartFail (by decide) 9 false
    { mon := freshMon [0] [1], server := [4], connected := true, deinits := 0 }
    [0] [1] rfl

/-- Counterexample to C5 as stated: on a monitor whose worker has already
died (`self.t` set but not alive), `__stop` skips the join branch and leaves
the thread handle set — it does not clear it. -/
theorem claim_C5_counterexample :
    ((monStopInternal false
        { mon := { t := some false, writer := some (), capture_id := some 5,
                   pkt_count := some 3, byte_count := some 100,
                   tx_port_list := [0], rx_port_list := [1] },
          server := [5], connected := true, deinits := 0 }).1).mon.t
      = some false
    ∧ (some false : Option Bool) ≠ none := by
  refine ⟨rfl, ?_⟩
  decide

/-- C5 (amended): when the worker is alive, `__stop` clears the thread
handle; it always clears the writer and the stored capture id, and does so
on every remote-cleanup branch — in particular even when the stop-session
RPC fails (`rf = true`); the stop-session RPC is issued exactly when the
client is connected and the saved id is still in the server's live list;
and a second `stop()` issues no stop-session RPC. -/
theorem claim_C5_stop_behavior (rf rf2 : Bool) (w : CapWorld)
    (hAlive : w.mon.threadAlive = true) :
    ((monStopInternal rf w).1).mon.t = none
    ∧ ((monStopInternal rf w).1).mon.writer = none
    ∧ ((monStopInternal rf w).1).mon.capture_id = none
    ∧ ((monStopInternal rf w).2.2
        = if w.connected
              && (w.mon.capture_id.elim false (fun i => decide (i ∈ w.server)))
          then 1 else 0)
    ∧ (monStopInternal rf2 ((monStopInternal rf w).1)).2.2 = 0 := by
  have hm := monStopLocalMon_fields w.mon
  refine ⟨?_, ?_, ?_, monStopInternal_rpcCount rf w, ?_⟩
  · rw [monStopInternal_mon, hm.1, hAlive]
    rfl
  · rw [monStopInternal_mon]
    exact hm.2.1
  · rw [monStopInternal_mon]
    exact hm.2.2.1
  · rw [monStopInternal_rpcCount, monStopInternal_mon,
        (monStopLocalMon_fields w.mon).2.2.1]
    simp

/-- Witness for C5: a live monitor, connected server holding its session,
and a failing stop-session RPC. -/
theorem claim_C5_stop_behavior_witness :
    ({ mon := { t := some true, writer := some (), capture_id := some 5,
                pkt_count := some 2, byte_count := some 40,
                tx_port_list := [0], rx_port_list := [] },
       server := [5, 8], connected := true, deinits := 0 } : CapWorld).mon.threadAlive
      = true
    ∧ (((monStopInternal true
          { mon := { t := some true, writer := some (), capture_id := some 5,
                     pkt_count := some 2, byte_count := some 40,
                     tx_port_list := [0], rx_port_list := [] },
            server := [5, 8], connected := true, deinits := 0 }).1).mon.t = none
      ∧ ((monStopInternal true
          { mon := { t := some true, writer := some (), capture_id := some 5,
                     pkt_count := some 2, byte_count := some 40,
                     tx_port_list := [0], rx_port_list := [] },
            server := [5, 8], connected := true, deinits := 0 }).1).mon.writer = none
      ∧ ((monStopInternal true
          { mon := { t := some true, writer := some (), capture_id := some 5,
                     pkt_count := some 2, byte_count := some 40,
                     tx_port_list := [0], rx_port_list := [] },
            server := [5, 8], connected := true, deinits := 0 }).1).mon.capture_id = none
      ∧ ((monStopInternal true
          { mon := { t := some true, writer := some (), capture_id := some 5,
                     pkt_count := some 2, byte_count := some 40,
                     tx_port_list := [0], rx_port_list := [] },
            server := [5, 8], connected := true, deinits := 0 }).2.2
          = if (true : Bool)
                && ((some 5 : Option Nat).elim false (fun i => decide (i ∈ [5, 8])))
            then 1 else 0)
      ∧ (monStopInternal false
          ((monStopInternal true
            { mon := { t := some true, writer := some (), capture_id := some 5,
                       pkt_count := some 2, byte_count := some 40,
                       tx_port_list := [0], rx_port_list := [] },
              server := [5, 8], connected := true, deinits := 0 }).1)).2.2 = 0) :=
  ⟨rfl, claim_C5_stop_behavior true false
    { mon := { t := some true, writer := some (), capture_id := some 5,
               pkt_count := some 2, byte_count := some 40,
               tx_port_list := [0], rx_port_list := [] },
      server := [5, 8], connected := true, deinits := 0 } rfl⟩

/-- The `__lock` polling loop never touches the release counter: it only
calls `acquire(False)`. -/
theorem lockAcquireLoop_releases (sched : List (Bool × Bool)) (l l1 : CmdLock)
    (b : Bool) (h : lockAcquireLoop l sched = some (b, l1)) :
    l1.releases = l.releases := by
  induction sched with
  | nil => exact absurd h (by simp [lockAcquireLoop])
  | cons p rest ih =>
    obtain ⟨acq, act⟩ := p
    cases acq with
    | true =>
      simp [lockAcquireLoop] at h
      rw [← h.2, CmdLock.take]
    | false =>
      cases act with
      | false =>
        simp [lockAcquireLoop] at h
        rw [← h.2]
      | true =>
        simp [lockAcquireLoop] at h
        exact ih h

/-- C6: in every worker-loop iteration in which `__lock` acquired the
command lock, the iteration runs the locked region and releases the lock
exactly once — its release counter goes up by one and the lock is not held
afterwards — on every exit path, including the paths where the
connectivity check or the fetch RPC raises (`connected`/`rc` arbitrary), so
no exception escapes the iteration with the lock held. -/
theorem claim_C6_lock_released (connected : Bool) (rc : FetchRc)
    (sched : List (Bool × Bool)) (l l1 : CmdLock)
    (hacq : lockAcquireLoop l sched = some (true, l1)) :
    lockedIteration connected rc sched l
      = some (some (lockedFetch connected rc l1).1, CmdLock.drop l1)
    ∧ (CmdLock.drop l1).releases = l.releases + 1
    ∧ (CmdLock.drop l1).held = false := by
  refine ⟨?_, ?_, rfl⟩
  · unfold lockedIteration
    rw [hacq]
    rfl
  · simp [CmdLock.drop, lockAcquireLoop_releases sched l l1 true hacq]

/-- Witness for C6: the lock is acquired on the second poll, the client is
disconnected (the locked region raises), and the release is still counted. -/
theorem claim_C6_lock_released_witness :
    lockAcquireLoop ⟨false, 0, 0⟩ [(false, true), (true, true)]
      = some (true, ⟨true, 1, 0⟩)
    ∧ (lockedIteration false none [(false, true), (true, true)] ⟨false, 0, 0⟩
        = some (some (lockedFetch false none ⟨true, 1, 0⟩).1,
                CmdLock.drop ⟨true, 1, 0⟩)
      ∧ (CmdLock.drop ⟨true, 1, 0⟩).releases = 0 + 1
      ∧ (CmdLock.drop ⟨true, 1, 0⟩).held = false) :=
  ⟨rfl, claim_C6_lock_released false none [(false, true), (true, true)]
    ⟨false, 0, 0⟩ ⟨true, 1, 0⟩ rfl⟩

/-- Whether a computation raised the monitor-level error type `STLError`. -/
def raisedSTL {α : Type} : Except PyExc α → Bool
  | .error e => e.isSTL
  | .ok _ => false

/-- C7: whenever pipe-writer construction fails or is interrupted by the
user — at `os.mkfifo`, at the blocking `os.open`, or at the PCAP
header step — `deinit` runs before the error surfaces as an `STLError`, and
no pipe file remains on the filesystem (given the temp name was fresh, the
filesystem is exactly as before). -/
theorem claim_C7_pipe_cleanup (name : String) (s1 s2 s3 : StepOutcome)
    (fs : FileSys) (hfresh : name ∉ fs.files)
    (hfail : ¬(s1 = StepOutcome.ok ∧ s2 = StepOutcome.ok
               ∧ s3 = StepOutcome.ok)) :
    raisedSTL (pipeInit name s1 s2 s3 fs).1 = true
    ∧ ((pipeInit name s1 s2 s3 fs).2).files = fs.files
    ∧ name ∉ ((pipeInit name s1 s2 s3 fs).2).files := by
  cases s1 <;> cases s2 <;> cases s3 <;>
    simp_all [pipeInit, pipeDeinit, raisedSTL, PyExc.isSTL]

/-- Witness for C7: a `KeyboardInterrupt` while the blocking `os.open`
waits for the consumer; the freshly created pipe file is removed. -/
theorem claim_C7_pipe_cleanup_witness :
    ("p" ∉ ({ files := [] } : FileSys).files
      ∧ ¬(StepOutcome.ok = StepOutcome.ok ∧ StepOutcome.kbInt = StepOutcome.ok
          ∧ StepOutcome.ok = StepOutcome.ok))
    ∧ (raisedSTL (pipeInit "p" StepOutcome.ok StepOutcome.kbInt StepOutcome.ok
          { files := [] }).1 = true
      ∧ ((pipeInit "p" StepOutcome.ok StepOutcome.kbInt StepOutcome.ok
          { files := [] }).2).files = ({ files := [] } : FileSys).files
      ∧ "p" ∉ ((pipeInit "p" StepOutcome.ok StepOutcome.kbInt StepOutcome.ok
          { files := [] }).2).files) :=
  ⟨⟨by simp, by simp⟩,
   claim_C7_pipe_cleanup "p" StepOutcome.ok StepOutcome.kbInt StepOutcome.ok
     { files := [] } (by simp) (by simp)⟩

/-- C8: both `periodic_check` and the pre-write check of the pipe writer's
`handle_pkts` consult only the zero-timeout (non-blocking) poll probe —
two probes agreeing at timeout 0 give identical results — and whenever the
probe reports a hangup both raise `STLError` with the message
`pipe has been disconnected`, before any packet is written. -/
theorem claim_C8_pipe_probe (pollEvents pollEvents2 : Nat → List Nat)
    (hsame : pollEvents 0 = pollEvents2 0)
    (hup : (pollEvents 0).isEmpty = false)
    (writeOk : Bool) (pkts : List CapturedPacket) :
    (pipePeriodicCheck pollEvents = pipePeriodicCheck pollEvents2
      ∧ pipeHandlePkts pollEvents writeOk pkts
        = pipeHandlePkts pollEvents2 writeOk pkts)
    ∧ pipePeriodicCheck pollEvents = .error (.stl "pipe has been disconnected")
    ∧ pipeHandlePkts pollEvents writeOk pkts
        = .error (.stl "pipe has been disconnected") := by
  have h1 : check_pipe pollEvents = .error (.stl "pipe has been disconnected") := by
    simp [check_pipe, hup]
  have h2 : check_pipe pollEvents2 = .error (.stl "pipe has been disconnected") := by
    simp [check_pipe, ← hsame, hup]
  refine ⟨⟨?_, ?_⟩, ?_, ?_⟩ <;>
    simp [pipePeriodicCheck, pipeHandlePkts, h1, h2]

/-- Witness for C8: a probe that reports an event at timeout 0. -/
theorem claim_C8_pipe_probe_witness :
    ((fun _ => [1] : Nat → List Nat) 0
        = (fun t => if t = 0 then [1] else [] : Nat → List Nat) 0
      ∧ (((fun _ => [1] : Nat → List Nat) 0).isEmpty = false))
    ∧ ((pipePeriodicCheck (fun _ => [1])
          = pipePeriodicCheck (fun t => if t = 0 then [1] else [])
      ∧ pipeHandlePkts (fun _ => [1]) true []
          = pipeHandlePkts (fun t => if t = 0 then [1] else []) true [])
    ∧ pipePeriodicCheck (fun _ => [1])
        = .error (.stl "pipe has been disconnected")
    ∧ pipeHandlePkts (fun _ => [1]) true []
        = .error (.stl "pipe has been disconnected")) :=
  ⟨⟨rfl, rfl⟩,
   claim_C8_pipe_probe (fun _ => [1]) (fun t => if t = 0 then [1] else [])
     rfl rfl true []⟩

/-- On a fully decodable batch, the stdout writer's loop sums the payload
lengths. -/
theorem stdoutHandlePktsGo_ok (pkts : List CapturedPacket) (acc : Nat)
    (hdec : ∀ p ∈ pkts, (p.binary).isSome = true) :
    stdoutHandlePktsGo acc pkts
      = .ok (acc + (pkts.map CapturedPacket.binLen).sum) := by
  induction pkts generalizing acc with
  | nil => simp [stdoutHandlePktsGo]
  | cons p rest ih =>
    obtain ⟨bs, hbs⟩ := Option.isSome_iff_exists.mp (hdec p (by simp))
    have hrest : ∀ q ∈ rest, (q.binary).isSome = true :=
      fun q hq => hdec q (List.mem_cons_of_mem _ hq)
    simp only [stdoutHandlePktsGo, stdoutHandlePkt, hbs]
    rw [ih (acc + bs.length) hrest]
    simp [CapturedPacket.binLen, hbs, add_assoc]

/-- On a fully decodable batch with a healthy pipe, the pipe writer's loop
sums the payload lengths. -/
theorem pipeHandlePktsGo_ok (pkts : List CapturedPacket) (acc : Nat)
    (hdec : ∀ p ∈ pkts, (p.binary).isSome = true) :
    pipeHandlePktsGo true acc pkts
      = .ok (acc + (pkts.map CapturedPacket.binLen).sum) := by
  induction pkts generalizing acc with
  | nil => simp [pipeHandlePktsGo]
  | cons p rest ih =>
    obtain ⟨bs, hbs⟩ := Option.isSome_iff_exists.mp (hdec p (by simp))
    have hrest : ∀ q ∈ rest, (q.binary).isSome = true :=
      fun q hq => hdec q (List.mem_cons_of_mem _ hq)
    simp only [pipeHandlePktsGo, pipeWritePkt, hbs, if_true]
    rw [ih (acc + bs.length) hrest]
    simp [CapturedPacket.binLen, hbs, add_assoc]

/-- A failing `_write_packet` on the first (decodable) packet raises the
converted `STLError`. -/
theorem pipeHandlePktsGo_writeFail (p : CapturedPacket)
    (rest : List CapturedPacket) (acc : Nat)
    (hp : (p.binary).isSome = true) :
    pipeHandlePktsGo false acc (p :: rest)
      = .error (.stl "fail to write packets to pipe") := by
  obtain ⟨bs, hbs⟩ := Option.isSome_iff_exists.mp hp
  simp [pipeHandlePktsGo, pipeWritePkt, hbs]

/-- Counterexample to C9 as stated: a packet whose base64 payload cannot be
decoded makes both writers' `handle_pkts` raise the raw decode exception —
which is not the monitor-level `STLError` — because neither decode site is
wrapped in a try/except. -/
theorem claim_C9_counterexample :
    stdoutHandlePkts [{ binary := none, origin := "RX", port := 0, index := 0 }]
      = .error PyExc.decodeErr
    ∧ pipeHandlePktsInternal true
        [{ binary := none, origin := "RX", port := 0, index := 0 }]
      = .error PyExc.decodeErr
    ∧ PyExc.decodeErr.isSTL = false :=
  ⟨rfl, rfl, rfl⟩

/-- C9 (amended): on a batch whose packets all decode, `handle_pkts` of both
writer variants returns the total byte count of the batch; an unavailable or
failing pipe destination raises the monitor-level `STLError`; but a packet
that cannot be decoded raises the raw decode exception unconverted. -/
theorem claim_C9_handle_pkts (pkts : List CapturedPacket)
    (hdec : ∀ p ∈ pkts, (p.binary).isSome = true) (hne : pkts ≠ []) :
    stdoutHandlePkts pkts = .ok ((pkts.map CapturedPacket.binLen).sum)
    ∧ pipeHandlePktsInternal true pkts
        = .ok ((pkts.map CapturedPacket.binLen).sum)
    ∧ raisedSTL (pipeHandlePktsInternal false pkts) = true := by
  refine ⟨?_, ?_, ?_⟩
  · have h := stdoutHandlePktsGo_ok pkts 0 hdec
    simpa [stdoutHandlePkts] using h
  · have h := pipeHandlePktsGo_ok pkts 0 hdec
    simpa [pipeHandlePktsInternal] using h
  · cases pkts with
    | nil => exact absurd rfl hne
    | cons p rest =>
      rw [pipeHandlePktsInternal,
          pipeHandlePktsGo_writeFail p rest 0 (hdec p (by simp))]
      rfl

/-- Witness for C9 at a concrete decodable batch. -/
theorem claim_C9_handle_pkts_witness :
    ((∀ p ∈ ([⟨some [1, 2], "RX", 0, 0⟩, ⟨some [3], "TX", 1, 1⟩] :
          List CapturedPacket), (p.binary).isSome = true)
      ∧ ([⟨some [1, 2], "RX", 0, 0⟩, ⟨some [3], "TX", 1, 1⟩] :
          List CapturedPacket) ≠ [])
    ∧ (stdoutHandlePkts [⟨some [1, 2], "RX", 0, 0⟩, ⟨some [3], "TX", 1, 1⟩]
        = .ok (([⟨some [1, 2], "RX", 0, 0⟩, ⟨some [3], "TX", 1, 1⟩] :
            List CapturedPacket).map CapturedPacket.binLen).sum
      ∧ pipeHandlePktsInternal true
          [⟨some [1, 2], "RX", 0, 0⟩, ⟨some [3], "TX", 1, 1⟩]
        = .ok (([⟨some [1, 2], "RX", 0, 0⟩, ⟨some [3], "TX", 1, 1⟩] :
            List CapturedPacket).map CapturedPacket.binLen).sum
      ∧ raisedSTL (pipeHandlePktsInternal false
          [⟨some [1, 2], "RX", 0, 0⟩, ⟨some [3], "TX", 1, 1⟩]) = true) :=
  ⟨⟨by decide, by decide⟩,
   claim_C9_handle_pkts [⟨some [1, 2], "RX", 0, 0⟩, ⟨some [3], "TX", 1, 1⟩]
     (by decide) (by decide)⟩

/-- Counterexample to C10 as stated: `stop()` does not clear the counters,
and when the worker has already died it does not clear `self.t` either —
so `get_mon_row` after this `stop()` returns a full status row instead of
raising `AttributeError`. -/
theorem claim_C10_counterexample :
    get_mon_row ((monStopInternal false
        { mon := { t := some false, writer := some (), capture_id := some 7,
                   pkt_count := some 3, byte_count := some 100,
                   tx_port_list := [0], rx_port_list := [1] },
          server := [7], connected := true, deinits := 0 }).1).mon
      = .ok { id := none, status := "DEAD", pkts := 3, bytes := 100,
              tx := "0", rx := "1" } := rfl

/-- C10 (amended): `get_mon_row` raises `AttributeError` after a `stop()`
that joined a live worker (the thread handle is then `None` and
`self.t.is_alive()` fails), and after construction before the worker thread
initializes the counters (`self.pkt_count` was never assigned); but
`stop()` never clears the counters, so an already-dead monitor whose worker
ran still renders a row after `stop()`. -/
theorem claim_C10_get_mon_row (w : CapWorld) (rf : Bool)
    (hAlive : w.mon.threadAlive = true)
    (server : List Nat) (conn : Bool) (tx rx : List Nat) (newId : Nat)
    (rf2 : Bool) :
    get_mon_row ((monStopInternal rf w).1).mon
      = .error (.attrErr "NoneType object has no attribute is_alive")
    ∧ get_mon_row ((monInit StartOutcome.ok newId rf2
          { mon := freshMon tx rx, server := server, connected := conn,
            deinits := 0 }).1).mon
      = .error (.attrErr "CaptureMonitor object has no attribute pkt_count")
    ∧ ((monStopInternal rf w).1).mon.pkt_count = w.mon.pkt_count
    ∧ ((monStopInternal rf w).1).mon.byte_count = w.mon.byte_count := by
  have hm := monStopLocalMon_fields w.mon
  have ht : (monStopLocalMon w.mon).t = none := by
    rw [hm.1, hAlive]
    rfl
  refine ⟨?_, ?_, ?_, ?_⟩
  · rw [monStopInternal_mon]
    simp [get_mon_row, ht]
  · simp [monInit, monStart, get_mon_row, freshMon]
  · rw [monStopInternal_mon]
    exact hm.2.2.2.1
  · rw [monStopInternal_mon]
    exact hm.2.2.2.2.1

/-- Witness for C10: a live monitor stopped, and a freshly constructed one
whose worker has not run yet. -/
theorem claim_C10_get_mon_row_witness :
    ({ mon := { t := some true, writer := some (), capture_id := some 4,
                pkt_count := some 9, byte_count := some 90,
                tx_port_list := [2], rx_port_list := [] },
       server := [4], connected := true, deinits := 0 } : CapWorld).mon.threadAlive
      = true
    ∧ (get_mon_row ((monStopInternal false
          { mon := { t := some true, writer := some (), capture_id := some 4,
                     pkt_count := some 9, byte_count := some 90,
                     tx_port_list := [2], rx_port_list := [] },
            server := [4], connected := true, deinits := 0 }).1).mon
        = .error (.attrErr "NoneType object has no attribute is_alive")
      ∧ get_mon_row ((monInit StartOutcome.ok 6 false
            { mon := freshMon [0] [1], server := [], connected := true,
              deinits := 0 }).1).mon
        = .error (.attrErr "CaptureMonitor object has no attribute pkt_count")
      ∧ ((monStopInternal false
          { mon := { t := some true, writer := some (), capture_id := some 4,
                     pkt_count := some 9, byte_count := some 90,
                     tx_port_list := [2], rx_port_list := [] },
            server := [4], connected := true, deinits := 0 }).1).mon.pkt_count
        = some 9
      ∧ ((monStopInternal false
          { mon := { t := some true, writer := some (), capture_id := some 4,
                     pkt_count := some 9, byte_count := some 90,
                     tx_port_list := [2], rx_port_list := [] },
            server := [4], connected := true, deinits := 0 }).1).mon.byte_count
        = some 90) :=
  ⟨rfl, claim_C10_get_mon_row
    { mon := { t := some true, writer := some (), capture_id := some 4,
               pkt_count := some 9, byte_count := some 90,
               tx_port_list := [2], rx_port_list := [] },
      server := [4], connected := true, deinits := 0 } false rfl
    [] true [0] [1] 6 false⟩

end TrexCapture
